import Mathlib

/-!
Verification of the fake-background yield estimator in
VHiggs/test/plotting/analysis.py (function estimate_fake_sum and its inner
helpers get_rel_counting_err and compute_errors, plus the per-bin fill in
the main loop that consumes its result).

The Python code computes with values of the uncertainties package
(ufloat): a nominal value together with a standard deviation, combined by
first-order (linear) error propagation with full correlation tracking.
Each call ufloat((n, s)) creates a fresh error source, independent of all
other sources.  We embed such a value as a UFloat: the nominal value plus
a list of coefficients, one per error source, the coefficient being the
partial derivative of the expression with respect to that source times the
sigma of that source.  The standard deviation is the square root of the
sum of the squares of the coefficients, exactly as in the package.

Arithmetic on UFloat follows the package exactly at first order:
addition/subtraction act componentwise, multiplication and division
linearize around the nominal values.  Within one region at most two error
sources exist (the enriched count and the triple-fake enriched count), so
in-region values carry two coordinates; combining the two regions and the
double-fake term, whose sources are disjoint fresh sources, concatenates
coefficient lists.

Python floats are modelled as real numbers.  Python exceptions are
modelled with Except: math.sqrt of a negative number raises ValueError,
and division of a float by zero raises ZeroDivisionError, so
get_rel_counting_err(number), which computes sqrt(number)/number, fails
with ValueError when number < 0 and with ZeroDivisionError when
number == 0.
-/

/-- A value of the uncertainties package: nominal value and the vector of
first-order sensitivities (derivative times sigma) to each independent
error source. -/
structure UFloat where
  nominal_value : ℝ
  coeffs : List ℝ

/-- Variance: sum of squared sensitivities. -/
noncomputable def UFloat.var (x : UFloat) : ℝ :=
  (x.coeffs.map fun c => c ^ 2).sum

/-- Standard deviation, the std_dev attribute of the package. -/
noncomputable def UFloat.std_dev (x : UFloat) : ℝ :=
  Real.sqrt x.var

/-- A constant (no uncertainty), represented in the two in-region
coordinates. -/
noncomputable def ufconst (c : ℝ) : UFloat := ⟨c, [0, 0]⟩

/-- Sum of two correlated in-region values (same source coordinates). -/
noncomputable def ufadd (x y : UFloat) : UFloat :=
  ⟨x.nominal_value + y.nominal_value,
   List.zipWith (fun a b => a + b) x.coeffs y.coeffs⟩

/-- Difference of two correlated in-region values. -/
noncomputable def ufsub (x y : UFloat) : UFloat :=
  ⟨x.nominal_value - y.nominal_value,
   List.zipWith (fun a b => a - b) x.coeffs y.coeffs⟩

/-- Product, linearized around the nominal values (first-order propagation,
as the package computes). -/
noncomputable def ufmul (x y : UFloat) : UFloat :=
  ⟨x.nominal_value * y.nominal_value,
   List.zipWith (fun a b => x.nominal_value * b + y.nominal_value * a)
     x.coeffs y.coeffs⟩

/-- Quotient, linearized around the nominal values: the derivative of x/y
is dx/y - x dy/y^2. -/
noncomputable def ufdiv (x y : UFloat) : UFloat :=
  ⟨x.nominal_value / y.nominal_value,
   List.zipWith
     (fun a b => (a * y.nominal_value - x.nominal_value * b) /
       y.nominal_value ^ 2)
     x.coeffs y.coeffs⟩

/-- Multiplication by a plain float (exact linear scaling). -/
noncomputable def ufscale (c : ℝ) (x : UFloat) : UFloat :=
  ⟨c * x.nominal_value, x.coeffs.map fun a => c * a⟩

/-- Sum of two values whose error sources are disjoint fresh sources:
coefficient lists concatenate. -/
noncomputable def ufaddIndep (x y : UFloat) : UFloat :=
  ⟨x.nominal_value + y.nominal_value, x.coeffs ++ y.coeffs⟩

/-- Difference of two values whose error sources are disjoint fresh
sources. -/
noncomputable def ufsubIndep (x y : UFloat) : UFloat :=
  ⟨x.nominal_value - y.nominal_value,
   x.coeffs ++ y.coeffs.map fun a => -a⟩

/-- The fr1/fr2 dictionaries of estimate_fake_sum.  Field q123 is the
dictionary entry with key 123 and q123en the entry with key 123en. -/
structure Fakerate where
  en : ℝ
  ewk_s : ℝ
  qcd_s : ℝ
  q123 : ℝ
  q123en : ℝ

/-- The Python exceptions that the estimator can raise. -/
inductive PyError where
  | valueError
  | zeroDivisionError
deriving DecidableEq

/-- get_rel_counting_err(number) = ufloat((1.0, sqrt(number)/number)).
The returned real is the sigma of the fresh one-source value 1 with
standard deviation sqrt(number)/number; the caller places the fresh
source in its own coordinate.  math.sqrt raises ValueError on a negative
argument; the division then raises ZeroDivisionError when number is 0. -/
noncomputable def get_rel_counting_err (number : ℝ) : Except PyError ℝ :=
  if number < 0 then .error .valueError
  else if number = 0 then .error .zeroDivisionError
  else .ok (Real.sqrt number / number)

/-- The local enriched_region_error: the fresh source sits in the first
in-region coordinate. -/
noncomputable def enriched_region_error (sig1 : ℝ) : UFloat := ⟨1, [sig1, 0]⟩

/-- The local qcd_in_enriched_region_error: the fresh source sits in the
second in-region coordinate. -/
noncomputable def qcd_in_enriched_region_error (sig2 : ℝ) : UFloat :=
  ⟨1, [0, sig2]⟩

/-- qcd_fraction = fakerate[123] * qcd_in_enriched_region_error
/ (fakerate[en] * enriched_region_error). -/
noncomputable def qcd_fraction (fr : Fakerate) (sig1 sig2 : ℝ) : UFloat :=
  ufdiv (ufscale fr.q123 (qcd_in_enriched_region_error sig2))
        (ufscale fr.en (enriched_region_error sig1))

/-- est_yield = enriched_region_error * ((1 - qcd_fraction) * ewk_s
+ qcd_fraction * qcd_s). -/
noncomputable def est_yield (fr : Fakerate) (sig1 sig2 : ℝ) : UFloat :=
  ufmul (enriched_region_error sig1)
    (ufadd (ufscale fr.ewk_s (ufsub (ufconst 1) (qcd_fraction fr sig1 sig2)))
           (ufscale fr.qcd_s (qcd_fraction fr sig1 sig2)))

/-- compute_errors(fakerate): returns ufloat((0, 0)) when the enriched
count is falsy (that is, equals 0); otherwise creates the two relative
counting errors in Python evaluation order and returns est_yield. -/
noncomputable def compute_errors (fr : Fakerate) : Except PyError UFloat :=
  if fr.en = 0 then .ok ⟨0, [0]⟩
  else
    match get_rel_counting_err fr.en with
    | .error e => .error e
    | .ok sig1 =>
      match get_rel_counting_err fr.q123en with
      | .error e => .error e
      | .ok sig2 => .ok (est_yield fr sig1 sig2)

/-- The double-object term: double_est = 0 unless fr12en is truthy
(nonzero), in which case double_est = fr12s * get_rel_counting_err(fr12en),
a value with one fresh error source. -/
noncomputable def double_contrib (fr12s fr12en : ℝ) : Except PyError UFloat :=
  if fr12en = 0 then .ok ⟨0, []⟩
  else
    match get_rel_counting_err fr12en with
    | .error e => .error e
    | .ok sig => .ok ⟨fr12s, [fr12s * sig]⟩

/-- estimate_fake_sum(fr1, fr2, fr12s, fr12en): evaluates the two region
estimates and the double-object term in Python order and returns
fake1est + fake2est - double_est, all error sources being disjoint. -/
noncomputable def estimate_fake_sum (fr1 fr2 : Fakerate) (fr12s fr12en : ℝ) :
    Except PyError UFloat :=
  match compute_errors fr1 with
  | .error e => .error e
  | .ok fake1est =>
    match compute_errors fr2 with
    | .error e => .error e
    | .ok fake2est =>
      match double_contrib fr12s fr12en with
      | .error e => .error e
      | .ok double_est =>
        .ok (ufsubIndep (ufaddIndep fake1est fake2est) double_est)

/-- The per-bin consumption of the result in the main loop:
SetBinContent(i, max(0, total_yield.nominal_value)) and
SetBinError(i, total_yield.std_dev()). -/
noncomputable def fill_bin (total_yield : UFloat) : ℝ × ℝ :=
  (max 0 total_yield.nominal_value, total_yield.std_dev)

/-- A region dictionary whose entries are all zero. -/
noncomputable def r2zero : Fakerate := ⟨0, 0, 0, 0, 0⟩

/-- The region-1 dictionary of the end-to-end scenario of the spec:
en 100, ewk_s 10, qcd_s 20, entry 123 equal to 5, entry 123en equal
to 50. -/
noncomputable def r1c4 : Fakerate := ⟨100, 10, 20, 5, 50⟩

/-! ## Basic evaluation lemmas -/

lemma get_rel_counting_err_pos (x : ℝ) (hx : 0 < x) :
    get_rel_counting_err x = .ok (Real.sqrt x / x) := by
  unfold get_rel_counting_err
  rw [if_neg (not_lt.mpr hx.le), if_neg hx.ne']

lemma get_rel_counting_err_zero :
    get_rel_counting_err 0 = .error .zeroDivisionError := by
  unfold get_rel_counting_err
  rw [if_neg (lt_irrefl 0), if_pos rfl]

lemma get_rel_counting_err_neg (x : ℝ) (hx : x < 0) :
    get_rel_counting_err x = .error .valueError := by
  unfold get_rel_counting_err
  rw [if_pos hx]

lemma compute_errors_of_zero (fr : Fakerate) (h : fr.en = 0) :
    compute_errors fr = .ok ⟨0, [0]⟩ := by
  unfold compute_errors
  rw [if_pos h]

lemma compute_errors_of_pos (fr : Fakerate) (h1 : 0 < fr.en)
    (h2 : 0 < fr.q123en) :
    compute_errors fr =
      .ok (est_yield fr (Real.sqrt fr.en / fr.en)
        (Real.sqrt fr.q123en / fr.q123en)) := by
  unfold compute_errors
  rw [if_neg h1.ne', get_rel_counting_err_pos _ h1,
    get_rel_counting_err_pos _ h2]

lemma compute_errors_of_neg_en (fr : Fakerate) (h : fr.en < 0) :
    compute_errors fr = .error .valueError := by
  unfold compute_errors
  rw [if_neg h.ne, get_rel_counting_err_neg _ h]

lemma compute_errors_of_zero_q123en (fr : Fakerate) (h1 : 0 < fr.en)
    (h2 : fr.q123en = 0) :
    compute_errors fr = .error .zeroDivisionError := by
  unfold compute_errors
  rw [if_neg h1.ne', get_rel_counting_err_pos _ h1, h2,
    get_rel_counting_err_zero]

lemma double_contrib_of_zero (s : ℝ) : double_contrib s 0 = .ok ⟨0, []⟩ := by
  unfold double_contrib
  rw [if_pos rfl]

lemma double_contrib_of_pos (s den : ℝ) (h : 0 < den) :
    double_contrib s den = .ok ⟨s, [s * (Real.sqrt den / den)]⟩ := by
  unfold double_contrib
  rw [if_neg h.ne', get_rel_counting_err_pos _ h]

lemma estimate_fake_sum_ok (fr1 fr2 : Fakerate) (s den : ℝ)
    (f1 f2 d : UFloat)
    (h1 : compute_errors fr1 = .ok f1) (h2 : compute_errors fr2 = .ok f2)
    (hd : double_contrib s den = .ok d) :
    estimate_fake_sum fr1 fr2 s den =
      .ok (ufsubIndep (ufaddIndep f1 f2) d) := by
  unfold estimate_fake_sum
  rw [h1, h2, hd]

lemma estimate_fake_sum_err1 (fr1 fr2 : Fakerate) (s den : ℝ) (e : PyError)
    (h1 : compute_errors fr1 = .error e) :
    estimate_fake_sum fr1 fr2 s den = .error e := by
  unfold estimate_fake_sum
  rw [h1]

/-! ## Variance and standard-deviation lemmas -/

lemma UFloat.var_nonneg (x : UFloat) : 0 ≤ x.var := by
  apply List.sum_nonneg
  intro a ha
  simp only [List.mem_map] at ha
  obtain ⟨c, _, rfl⟩ := ha
  positivity

lemma UFloat.std_dev_nonneg' (x : UFloat) : 0 ≤ x.std_dev :=
  Real.sqrt_nonneg _

lemma UFloat.std_dev_sq (x : UFloat) : x.std_dev ^ 2 = x.var :=
  Real.sq_sqrt x.var_nonneg

lemma ufaddIndep_var (x y : UFloat) :
    (ufaddIndep x y).var = x.var + y.var := by
  simp [ufaddIndep, UFloat.var]

lemma ufsubIndep_var (x y : UFloat) :
    (ufsubIndep x y).var = x.var + y.var := by
  simp [ufsubIndep, UFloat.var, List.map_map, Function.comp_def, neg_sq]

lemma r2zero_compute : compute_errors r2zero = .ok ⟨0, [0]⟩ :=
  compute_errors_of_zero _ rfl

lemma zero_sd : UFloat.std_dev ⟨0, [0]⟩ = 0 := by
  simp [UFloat.std_dev, UFloat.var]

lemma zero_eval : estimate_fake_sum r2zero r2zero 0 0 = .ok ⟨0, [0, 0]⟩ := by
  rw [estimate_fake_sum_ok r2zero r2zero 0 0 ⟨0, [0]⟩ ⟨0, [0]⟩ ⟨0, []⟩
    r2zero_compute r2zero_compute (double_contrib_of_zero 0)]
  simp [ufsubIndep, ufaddIndep]

/-! ## In-region nominal values and the quotient rule -/

lemma qcd_fraction_nominal (fr : Fakerate) (sig1 sig2 : ℝ) :
    (qcd_fraction fr sig1 sig2).nominal_value = fr.q123 / fr.en := by
  simp [qcd_fraction, ufdiv, ufscale, qcd_in_enriched_region_error,
    enriched_region_error]

lemma est_yield_nominal (fr : Fakerate) (sig1 sig2 : ℝ) :
    (est_yield fr sig1 sig2).nominal_value =
      (1 - fr.q123 / fr.en) * fr.ewk_s + (fr.q123 / fr.en) * fr.qcd_s := by
  simp only [est_yield, qcd_fraction, ufmul, ufadd, ufsub, ufdiv, ufscale,
    ufconst, enriched_region_error, qcd_in_enriched_region_error]
  ring

lemma qcd_fraction_var (fr : Fakerate) (h1 : 0 < fr.en) (h2 : 0 < fr.q123en) :
    (qcd_fraction fr (Real.sqrt fr.en / fr.en)
      (Real.sqrt fr.q123en / fr.q123en)).var =
      (fr.q123 / fr.en) ^ 2 * (1 / fr.en + 1 / fr.q123en) := by
  have hen : fr.en ≠ 0 := h1.ne'
  have hq : fr.q123en ≠ 0 := h2.ne'
  simp only [qcd_fraction, ufdiv, ufscale, qcd_in_enriched_region_error,
    enriched_region_error, UFloat.var, List.map_cons, List.map_nil,
    List.zipWith_cons_cons, List.zipWith_nil_left, List.zipWith_nil_right,
    List.sum_cons, List.sum_nil]
  set a := Real.sqrt fr.en with hA
  set b := Real.sqrt fr.q123en with hB
  have ha2 : a ^ 2 = fr.en := Real.sq_sqrt h1.le
  have hb2 : b ^ 2 = fr.q123en := Real.sq_sqrt h2.le
  have ha0 : a ≠ 0 := by rw [hA]; exact (Real.sqrt_pos.mpr h1).ne'
  have hb0 : b ≠ 0 := by rw [hB]; exact (Real.sqrt_pos.mpr h2).ne'
  rw [← ha2, ← hb2]
  field_simp
  ring

/-! ## Concrete evaluation of the end-to-end scenario -/

lemma sqrt_hundred : Real.sqrt (100 : ℝ) = 10 := by
  rw [show (100 : ℝ) = 10 ^ 2 by norm_num,
    Real.sqrt_sq (by norm_num : (0 : ℝ) ≤ 10)]

lemma c4_compute : compute_errors r1c4 =
    .ok (est_yield r1c4 (Real.sqrt 100 / 100) (Real.sqrt 50 / 50)) := by
  have h := compute_errors_of_pos r1c4 (by norm_num [r1c4])
    (by norm_num [r1c4])
  simpa [r1c4] using h

lemma c4_est : est_yield r1c4 (Real.sqrt 100 / 100) (Real.sqrt 50 / 50) =
    ⟨21 / 2, [1, Real.sqrt 50 / 100]⟩ := by
  simp only [est_yield, qcd_fraction, ufmul, ufadd, ufsub, ufdiv, ufscale,
    ufconst, enriched_region_error, qcd_in_enriched_region_error, r1c4,
    sqrt_hundred, List.map_cons, List.map_nil, List.zipWith_cons_cons,
    List.zipWith_nil_left, List.zipWith_nil_right, UFloat.mk.injEq,
    List.cons.injEq, List.nil_eq]
  norm_num
  ring

lemma c4_full : estimate_fake_sum r1c4 r2zero 0 0 =
    .ok ⟨21 / 2, [1, Real.sqrt 50 / 100, 0]⟩ := by
  rw [estimate_fake_sum_ok r1c4 r2zero 0 0 _ ⟨0, [0]⟩ ⟨0, []⟩ c4_compute
    r2zero_compute (double_contrib_of_zero 0), c4_est]
  simp [ufsubIndep, ufaddIndep]

lemma c4_var : UFloat.var ⟨21 / 2, [1, Real.sqrt 50 / 100, 0]⟩ = 201 / 200 := by
  have h50 : Real.sqrt 50 ^ 2 = (50 : ℝ) := Real.sq_sqrt (by norm_num)
  simp [UFloat.var, div_pow, h50]
  norm_num

/-! ## Claim theorems -/

/-- Claim C1, counterexample: a negative double_signal_estimate of -5 does
not make estimate_fake_sum raise; the call returns a value (nominal 5, the
sign-flipped estimate), so the input is not rejected and a nonsensical
estimate is silently returned. -/
theorem neg_double_signal_silently_accepted :
    estimate_fake_sum r2zero r2zero (-5) 1 = .ok ⟨5, [0, 0, 5]⟩ := by
  rw [estimate_fake_sum_ok r2zero r2zero (-5) 1 ⟨0, [0]⟩ ⟨0, [0]⟩
    ⟨-5, [(-5) * (Real.sqrt 1 / 1)]⟩ r2zero_compute r2zero_compute
    (double_contrib_of_pos (-5) 1 one_pos)]
  simp [ufsubIndep, ufaddIndep, Real.sqrt_one]

/-- Claim C1 amended: estimate_fake_sum performs no negativity validation.
A negative double_signal_estimate does not raise: the computation proceeds
and returns the sign-propagated estimate.  A negative enriched count is
not rejected immediately either: it surfaces only as a ValueError (math
domain error from sqrt) in the middle of the computation, not as an
InvalidInput-style rejection. -/
theorem no_negative_input_validation (s : ℝ) (hs : s < 0) (fr : Fakerate)
    (hen : fr.en < 0) :
    estimate_fake_sum r2zero r2zero s 1 = .ok ⟨-s, [0, 0, -s]⟩ ∧
    compute_errors fr = .error .valueError ∧
    estimate_fake_sum fr r2zero 0 0 = .error .valueError := by
  refine ⟨?_, compute_errors_of_neg_en fr hen,
    estimate_fake_sum_err1 fr r2zero 0 0 _ (compute_errors_of_neg_en fr hen)⟩
  rw [estimate_fake_sum_ok r2zero r2zero s 1 ⟨0, [0]⟩ ⟨0, [0]⟩
    ⟨s, [s * (Real.sqrt 1 / 1)]⟩ r2zero_compute r2zero_compute
    (double_contrib_of_pos s 1 one_pos)]
  simp [ufsubIndep, ufaddIndep, Real.sqrt_one]

/-- Witness for the amended claim C1 at s = -5 and a region with enriched
count -1. -/
theorem no_negative_input_validation_witness :
    ((-5 : ℝ) < 0 ∧ (⟨-1, 0, 0, 0, 0⟩ : Fakerate).en < 0) ∧
    (estimate_fake_sum r2zero r2zero (-5) 1 = .ok ⟨-(-5), [0, 0, -(-5)]⟩ ∧
     compute_errors ⟨-1, 0, 0, 0, 0⟩ = .error .valueError ∧
     estimate_fake_sum ⟨-1, 0, 0, 0, 0⟩ r2zero 0 0 = .error .valueError) :=
  ⟨⟨by norm_num, by show (-1 : ℝ) < 0; norm_num⟩,
   no_negative_input_validation (-5) (by norm_num) ⟨-1, 0, 0, 0, 0⟩
     (by show (-1 : ℝ) < 0; norm_num)⟩

/-- Claim C4, counterexample: on the input of the end-to-end scenario the
combined nominal value is 21/2 = 10.5, not 11.0, and the central QCD
fraction is 1/20 = 0.05, not 0.1. -/
theorem scenario_central_values_differ :
    estimate_fake_sum r1c4 r2zero 0 0 =
      .ok ⟨21 / 2, [1, Real.sqrt 50 / 100, 0]⟩ ∧
    (21 / 2 : ℝ) ≠ 11 ∧
    (qcd_fraction r1c4 (Real.sqrt 100 / 100)
      (Real.sqrt 50 / 50)).nominal_value = 1 / 20 ∧
    (1 / 20 : ℝ) ≠ 1 / 10 := by
  refine ⟨c4_full, by norm_num, ?_, by norm_num⟩
  rw [qcd_fraction_nominal]
  norm_num [r1c4]

/-- Claim C4 amended: on the scenario input the region2 and double terms
contribute exactly zero, region1 has central QCD fraction
(5 * 1) / (100 * 1) = 0.05, the central region-1 estimate is
0.95 * 10 + 0.05 * 20 = 10.5, and the combined value is 10.5 with nonzero
standard deviation (variance 201/200) driven by the counting statistics of
the 100 and 50 enriched counts. -/
theorem scenario_evaluation :
    estimate_fake_sum r1c4 r2zero 0 0 =
      .ok ⟨21 / 2, [1, Real.sqrt 50 / 100, 0]⟩ ∧
    UFloat.var ⟨21 / 2, [1, Real.sqrt 50 / 100, 0]⟩ = 201 / 200 ∧
    0 < UFloat.std_dev ⟨21 / 2, [1, Real.sqrt 50 / 100, 0]⟩ ∧
    compute_errors r2zero = .ok ⟨0, [0]⟩ ∧
    UFloat.std_dev ⟨0, [0]⟩ = 0 ∧
    double_contrib 0 0 = .ok ⟨0, []⟩ := by
  refine ⟨c4_full, c4_var, ?_, r2zero_compute, zero_sd,
    double_contrib_of_zero 0⟩
  rw [UFloat.std_dev, c4_var]
  exact Real.sqrt_pos.mpr (by norm_num)

/-- Claim C5: a region whose enriched count is exactly zero contributes
exactly zero with exactly zero uncertainty, as a returned value and not an
error; when both regions and the double region all have zero enriched
count, the result is nominal 0 with standard deviation 0. -/
theorem zero_enriched_policy (fr1 fr2 : Fakerate) (s : ℝ)
    (h1 : fr1.en = 0) (h2 : fr2.en = 0) :
    compute_errors fr1 = .ok ⟨0, [0]⟩ ∧
    UFloat.nominal_value ⟨0, [0]⟩ = 0 ∧
    UFloat.std_dev ⟨0, [0]⟩ = 0 ∧
    estimate_fake_sum fr1 fr2 s 0 = .ok ⟨0, [0, 0]⟩ ∧
    UFloat.nominal_value ⟨0, [0, 0]⟩ = 0 ∧
    UFloat.std_dev ⟨0, [0, 0]⟩ = 0 := by
  refine ⟨compute_errors_of_zero fr1 h1, rfl, zero_sd, ?_, rfl, ?_⟩
  · rw [estimate_fake_sum_ok fr1 fr2 s 0 ⟨0, [0]⟩ ⟨0, [0]⟩ ⟨0, []⟩
      (compute_errors_of_zero fr1 h1) (compute_errors_of_zero fr2 h2)
      (double_contrib_of_zero s)]
    simp [ufsubIndep, ufaddIndep]
  · simp [UFloat.std_dev, UFloat.var]

/-- Witness for claim C5 with both regions all zero. -/
theorem zero_enriched_policy_witness :
    (r2zero.en = 0 ∧ r2zero.en = 0) ∧
    (compute_errors r2zero = .ok ⟨0, [0]⟩ ∧
     UFloat.nominal_value ⟨0, [0]⟩ = 0 ∧
     UFloat.std_dev ⟨0, [0]⟩ = 0 ∧
     estimate_fake_sum r2zero r2zero 0 0 = .ok ⟨0, [0, 0]⟩ ∧
     UFloat.nominal_value ⟨0, [0, 0]⟩ = 0 ∧
     UFloat.std_dev ⟨0, [0, 0]⟩ = 0) :=
  ⟨⟨rfl, rfl⟩, zero_enriched_policy r2zero r2zero 0 rfl rfl⟩

/-- Claim C6: the double-object term is double_signal_estimate scaled by
the relative counting uncertainty of double_enriched_count (nominal value
fr12s, standard deviation the absolute value of fr12s times
sqrt(fr12en)/fr12en), and is exactly zero in value and error when
double_enriched_count is 0. -/
theorem double_fake_term_spec (s den : ℝ) (h : 0 < den) :
    double_contrib s den = .ok ⟨s, [s * (Real.sqrt den / den)]⟩ ∧
    UFloat.nominal_value ⟨s, [s * (Real.sqrt den / den)]⟩ = s ∧
    UFloat.std_dev ⟨s, [s * (Real.sqrt den / den)]⟩ =
      |s| * (Real.sqrt den / den) ∧
    double_contrib s 0 = .ok ⟨0, []⟩ ∧
    UFloat.nominal_value ⟨0, ([] : List ℝ)⟩ = 0 ∧
    UFloat.std_dev ⟨0, ([] : List ℝ)⟩ = 0 := by
  refine ⟨double_contrib_of_pos s den h, rfl, ?_, double_contrib_of_zero s,
    rfl, ?_⟩
  · simp only [UFloat.std_dev, UFloat.var, List.map_cons, List.map_nil,
      List.sum_cons, List.sum_nil, add_zero]
    rw [Real.sqrt_sq_eq_abs, abs_mul,
      abs_of_nonneg (by positivity : (0 : ℝ) ≤ Real.sqrt den / den)]
  · simp [UFloat.std_dev, UFloat.var]

/-- Witness for claim C6 at s = 2, den = 4. -/
theorem double_fake_term_spec_witness :
    (0 : ℝ) < 4 ∧
    (double_contrib 2 4 = .ok ⟨2, [2 * (Real.sqrt 4 / 4)]⟩ ∧
     UFloat.nominal_value ⟨2, [2 * (Real.sqrt 4 / 4)]⟩ = 2 ∧
     UFloat.std_dev ⟨2, [2 * (Real.sqrt 4 / 4)]⟩ =
       |(2 : ℝ)| * (Real.sqrt 4 / 4) ∧
     double_contrib 2 0 = .ok ⟨0, []⟩ ∧
     UFloat.nominal_value ⟨0, ([] : List ℝ)⟩ = 0 ∧
     UFloat.std_dev ⟨0, ([] : List ℝ)⟩ = 0) :=
  ⟨by norm_num, double_fake_term_spec 2 4 (by norm_num)⟩

/-- Claim C7: the estimator returns the true signed nominal value, which
can be negative, together with its standard deviation, unmodified; the
clamping of a negative nominal value to zero happens in the caller
(fill_bin, the SetBinContent line of the bin loop), which leaves the
standard deviation untouched. -/
theorem signed_value_and_caller_clamp (s : ℝ) (hs : 0 < s) :
    estimate_fake_sum r2zero r2zero s 1 = .ok ⟨-s, [0, 0, -s]⟩ ∧
    UFloat.nominal_value ⟨-s, [0, 0, -s]⟩ < 0 ∧
    fill_bin ⟨-s, [0, 0, -s]⟩ = (0, UFloat.std_dev ⟨-s, [0, 0, -s]⟩) := by
  refine ⟨?_, neg_lt_zero.mpr hs, ?_⟩
  · rw [estimate_fake_sum_ok r2zero r2zero s 1 ⟨0, [0]⟩ ⟨0, [0]⟩
      ⟨s, [s * (Real.sqrt 1 / 1)]⟩ r2zero_compute r2zero_compute
      (double_contrib_of_pos s 1 one_pos)]
    simp [ufsubIndep, ufaddIndep, Real.sqrt_one]
  · simp only [fill_bin]
    rw [max_eq_left (neg_nonpos.mpr hs.le)]

/-- Witness for claim C7 at s = 5. -/
theorem signed_value_and_caller_clamp_witness :
    (0 : ℝ) < 5 ∧
    (estimate_fake_sum r2zero r2zero 5 1 = .ok ⟨-5, [0, 0, -5]⟩ ∧
     UFloat.nominal_value ⟨-5, [0, 0, -5]⟩ < 0 ∧
     fill_bin ⟨-5, [0, 0, -5]⟩ = (0, UFloat.std_dev ⟨-5, [0, 0, -5]⟩)) :=
  ⟨by norm_num, signed_value_and_caller_clamp 5 (by norm_num)⟩

/-- Claim C9: whenever estimate_fake_sum returns a result, the standard
deviation of that result is nonnegative. -/
theorem std_dev_nonneg (fr1 fr2 : Fakerate) (s den : ℝ) (r : UFloat)
    (h : estimate_fake_sum fr1 fr2 s den = .ok r) : 0 ≤ r.std_dev :=
  Real.sqrt_nonneg _

/-- Witness for claim C9 on the all-zero input. -/
theorem std_dev_nonneg_witness :
    estimate_fake_sum r2zero r2zero 0 0 = .ok ⟨0, [0, 0]⟩ ∧
    0 ≤ UFloat.std_dev ⟨0, [0, 0]⟩ :=
  ⟨zero_eval, std_dev_nonneg r2zero r2zero 0 0 ⟨0, [0, 0]⟩ zero_eval⟩

/-- Claim C10: a region with positive enriched count but zero triple-fake
enriched count makes the computation fail with ZeroDivisionError: the
zero-count guard tests only the enriched count, and get_rel_counting_err
then divides sqrt(0) by 0. -/
theorem zero_triple_enriched_zero_division (fr1 fr2 : Fakerate) (s den : ℝ)
    (h1 : 0 < fr1.en) (h2 : fr1.q123en = 0) :
    compute_errors fr1 = .error .zeroDivisionError ∧
    estimate_fake_sum fr1 fr2 s den = .error .zeroDivisionError :=
  ⟨compute_errors_of_zero_q123en fr1 h1 h2,
   estimate_fake_sum_err1 fr1 fr2 s den _
     (compute_errors_of_zero_q123en fr1 h1 h2)⟩

/-- Witness for claim C10: enriched count 1, triple-fake enriched count
0. -/
theorem zero_triple_enriched_zero_division_witness :
    (0 < (⟨1, 2, 3, 4, 0⟩ : Fakerate).en ∧
     (⟨1, 2, 3, 4, 0⟩ : Fakerate).q123en = 0) ∧
    (compute_errors ⟨1, 2, 3, 4, 0⟩ = .error .zeroDivisionError ∧
     estimate_fake_sum ⟨1, 2, 3, 4, 0⟩ r2zero 0 0 =
       .error .zeroDivisionError) :=
  ⟨⟨by show (0 : ℝ) < 1; norm_num, rfl⟩,
   zero_triple_enriched_zero_division ⟨1, 2, 3, 4, 0⟩ r2zero 0 0
     (by show (0 : ℝ) < 1; norm_num) rfl⟩

lemma estimate_fake_sum_err2 (fr1 fr2 : Fakerate) (s den : ℝ) (f1 : UFloat)
    (e : PyError) (h1 : compute_errors fr1 = .ok f1)
    (h2 : compute_errors fr2 = .error e) :
    estimate_fake_sum fr1 fr2 s den = .error e := by
  unfold estimate_fake_sum
  rw [h1, h2]

lemma estimate_fake_sum_err3 (fr1 fr2 : Fakerate) (s den : ℝ)
    (f1 f2 : UFloat) (e : PyError) (h1 : compute_errors fr1 = .ok f1)
    (h2 : compute_errors fr2 = .ok f2)
    (hd : double_contrib s den = .error e) :
    estimate_fake_sum fr1 fr2 s den = .error e := by
  unfold estimate_fake_sum
  rw [h1, h2, hd]

/-- Claim C2: for a region with positive enriched count (and positive
triple-fake enriched count, without which the code fails), the
contribution is est_yield, the QCD/EWK-weighted mix scaled by the region
relative counting uncertainty; its nominal value is the central mix
(1 - q123/en) * ewk_s + (q123/en) * qcd_s; the QCD fraction is the ratio
of the triple-fake extrapolation times its relative counting uncertainty
to the enriched count times its relative counting uncertainty, with
nominal value q123/en and relative variance 1/en + 1/q123en, the
product/quotient propagation rule for independent relative
uncertainties. -/
theorem region_yield_mix_and_quotient_rule (fr : Fakerate)
    (h1 : 0 < fr.en) (h2 : 0 < fr.q123en) :
    compute_errors fr =
      .ok (est_yield fr (Real.sqrt fr.en / fr.en)
        (Real.sqrt fr.q123en / fr.q123en)) ∧
    (est_yield fr (Real.sqrt fr.en / fr.en)
      (Real.sqrt fr.q123en / fr.q123en)).nominal_value =
      (1 - fr.q123 / fr.en) * fr.ewk_s + (fr.q123 / fr.en) * fr.qcd_s ∧
    (qcd_fraction fr (Real.sqrt fr.en / fr.en)
      (Real.sqrt fr.q123en / fr.q123en)).nominal_value = fr.q123 / fr.en ∧
    (qcd_fraction fr (Real.sqrt fr.en / fr.en)
      (Real.sqrt fr.q123en / fr.q123en)).var =
      (fr.q123 / fr.en) ^ 2 * (1 / fr.en + 1 / fr.q123en) :=
  ⟨compute_errors_of_pos fr h1 h2, est_yield_nominal fr _ _,
   qcd_fraction_nominal fr _ _, qcd_fraction_var fr h1 h2⟩

/-- Witness for claim C2 on the scenario region (en 100, q123en 50). -/
theorem region_yield_mix_and_quotient_rule_witness :
    (0 < r1c4.en ∧ 0 < r1c4.q123en) ∧
    (compute_errors r1c4 =
      .ok (est_yield r1c4 (Real.sqrt r1c4.en / r1c4.en)
        (Real.sqrt r1c4.q123en / r1c4.q123en)) ∧
    (est_yield r1c4 (Real.sqrt r1c4.en / r1c4.en)
      (Real.sqrt r1c4.q123en / r1c4.q123en)).nominal_value =
      (1 - r1c4.q123 / r1c4.en) * r1c4.ewk_s +
        (r1c4.q123 / r1c4.en) * r1c4.qcd_s ∧
    (qcd_fraction r1c4 (Real.sqrt r1c4.en / r1c4.en)
      (Real.sqrt r1c4.q123en / r1c4.q123en)).nominal_value =
      r1c4.q123 / r1c4.en ∧
    (qcd_fraction r1c4 (Real.sqrt r1c4.en / r1c4.en)
      (Real.sqrt r1c4.q123en / r1c4.q123en)).var =
      (r1c4.q123 / r1c4.en) ^ 2 * (1 / r1c4.en + 1 / r1c4.q123en)) :=
  ⟨⟨by norm_num [r1c4], by norm_num [r1c4]⟩,
   region_yield_mix_and_quotient_rule r1c4 (by norm_num [r1c4])
     (by norm_num [r1c4])⟩

/-- Claim C3: whenever all three terms evaluate, the combined nominal
value is region1 plus region2 minus the double term, and the combined
standard deviation is the quadrature sum of the three standard deviations
(the three terms carry disjoint, hence uncorrelated, error sources). -/
theorem combined_sum_and_quadrature (fr1 fr2 : Fakerate) (s den : ℝ)
    (f1 f2 d total : UFloat)
    (h1 : compute_errors fr1 = .ok f1) (h2 : compute_errors fr2 = .ok f2)
    (hd : double_contrib s den = .ok d)
    (ht : estimate_fake_sum fr1 fr2 s den = .ok total) :
    total.nominal_value =
      f1.nominal_value + f2.nominal_value - d.nominal_value ∧
    total.std_dev =
      Real.sqrt (f1.std_dev ^ 2 + f2.std_dev ^ 2 + d.std_dev ^ 2) := by
  rw [estimate_fake_sum_ok fr1 fr2 s den f1 f2 d h1 h2 hd] at ht
  replace ht := Except.ok.inj ht
  subst ht
  constructor
  · simp [ufsubIndep, ufaddIndep]
  · rw [UFloat.std_dev_sq f1, UFloat.std_dev_sq f2, UFloat.std_dev_sq d]
    simp only [UFloat.std_dev]
    rw [ufsubIndep_var, ufaddIndep_var]

/-- Witness for claim C3 on the all-zero input. -/
theorem combined_sum_and_quadrature_witness :
    (compute_errors r2zero = .ok ⟨0, [0]⟩ ∧
     double_contrib 0 0 = .ok ⟨0, []⟩ ∧
     estimate_fake_sum r2zero r2zero 0 0 = .ok ⟨0, [0, 0]⟩) ∧
    (UFloat.nominal_value ⟨0, [0, 0]⟩ =
       UFloat.nominal_value ⟨0, [0]⟩ + UFloat.nominal_value ⟨0, [0]⟩ -
         UFloat.nominal_value ⟨0, ([] : List ℝ)⟩ ∧
     UFloat.std_dev ⟨0, [0, 0]⟩ =
       Real.sqrt (UFloat.std_dev ⟨0, [0]⟩ ^ 2 +
         UFloat.std_dev ⟨0, [0]⟩ ^ 2 +
         UFloat.std_dev ⟨0, ([] : List ℝ)⟩ ^ 2)) :=
  ⟨⟨r2zero_compute, double_contrib_of_zero 0, zero_eval⟩,
   combined_sum_and_quadrature r2zero r2zero 0 0 ⟨0, [0]⟩ ⟨0, [0]⟩ ⟨0, []⟩
     ⟨0, [0, 0]⟩ r2zero_compute r2zero_compute (double_contrib_of_zero 0)
     zero_eval⟩

/-- Claim C8: swapping the two regions (double-fake arguments unchanged)
leaves the nominal value of a successful result unchanged, and with equal
regions the full results coincide. -/
theorem swap_regions_nominal (fr1 fr2 : Fakerate) (s den : ℝ)
    (r r' : UFloat) (h : estimate_fake_sum fr1 fr2 s den = .ok r)
    (h' : estimate_fake_sum fr2 fr1 s den = .ok r') :
    r.nominal_value = r'.nominal_value ∧ (fr1 = fr2 → r = r') := by
  refine ⟨?_, fun hq => ?_⟩
  · cases e1 : compute_errors fr1 with
    | error e =>
      rw [estimate_fake_sum_err1 fr1 fr2 s den e e1] at h
      exact absurd h (by simp)
    | ok f1 =>
      cases e2 : compute_errors fr2 with
      | error e =>
        rw [estimate_fake_sum_err2 fr1 fr2 s den f1 e e1 e2] at h
        exact absurd h (by simp)
      | ok f2 =>
        cases e3 : double_contrib s den with
        | error e =>
          rw [estimate_fake_sum_err3 fr1 fr2 s den f1 f2 e e1 e2 e3] at h
          exact absurd h (by simp)
        | ok d =>
          rw [estimate_fake_sum_ok fr1 fr2 s den f1 f2 d e1 e2 e3] at h
          rw [estimate_fake_sum_ok fr2 fr1 s den f2 f1 d e2 e1 e3] at h'
          replace h := Except.ok.inj h
          replace h' := Except.ok.inj h'
          subst h
          subst h'
          simp only [ufsubIndep, ufaddIndep]
          ring
  · subst hq
    rw [h] at h'
    exact Except.ok.inj h'

/-- Witness for claim C8 with both regions all zero. -/
theorem swap_regions_nominal_witness :
    (estimate_fake_sum r2zero r2zero 0 0 = .ok ⟨0, [0, 0]⟩ ∧
     estimate_fake_sum r2zero r2zero 0 0 = .ok ⟨0, [0, 0]⟩) ∧
    (UFloat.nominal_value ⟨0, [0, 0]⟩ = UFloat.nominal_value ⟨0, [0, 0]⟩ ∧
     (r2zero = r2zero → (⟨0, [0, 0]⟩ : UFloat) = ⟨0, [0, 0]⟩)) :=
  ⟨⟨zero_eval, zero_eval⟩,
   swap_regions_nominal r2zero r2zero 0 0 ⟨0, [0, 0]⟩ ⟨0, [0, 0]⟩
     zero_eval zero_eval⟩
